import Mathlib

/-!
Verification of the synthetic-SVG data-generation pipeline
(`1-generate-synthetic-data.ts` and `2-convert-svg-folder-to-gpt-4o-jsonl.ts`).

The TypeScript source is embedded shallowly: strings are `String`, the model
collaborator is an environment function giving the outcome of each attempt of
each API call, waiting (`setTimeout`) is recorded in traces rather than
performed, and the filesystem is a list of written `(path, contents)` pairs.
-/

namespace SVGGen

/-- ASCII whitespace as recognised by both JavaScript's `trim` and the runs of
spaces/tabs/newlines that can actually occur in model output. -/
def isJsWhitespace (c : Char) : Bool :=
  c = ' ' || c = '\t' || c = '\n' || c = '\r'

/-- Model of JavaScript `String.prototype.trim` (used at
`chatCompletion...content?.trim()`, `accumulatedResponse.trim()` and
`data.svg.trim()` in the source): drop whitespace from both ends. -/
def jsTrim (s : String) : String :=
  ⟨((s.data.dropWhile isJsWhitespace).reverse.dropWhile isJsWhitespace).reverse⟩

/-- Model of JavaScript `String.prototype.startsWith`. -/
def jsStartsWith (s pre : String) : Bool :=
  pre.data.isPrefixOf s.data

/-- The configuration fields that drive control flow (source §3, the `Config`
interface and `config` object). Fields that only parameterize the API payload
(`model`, `temperature`, `maxTokens`, `svgExamples`, `virtualKey`) are not
modelled: no claim depends on them. Delays are in milliseconds. -/
structure Config where
  outputCount : Nat
  outputFolder : String
  maxRetries : Nat
  retryDelay : Nat
  generationDelay : Nat
deriving DecidableEq

/-- The concrete configuration object from the source (`config`, source §3). -/
def config : Config :=
  { outputCount := 10
    outputFolder := "svgs"
    maxRetries := 3
    retryDelay := 3000
    generationDelay := 2000 }

/-- The 62 characters matched by the character class `[a-z0-9]` with the `i`
flag in the regex `/[^a-z0-9]/gi` of `sanitizeFilename` (source §10). -/
def alnumChars : List Char :=
  ("abcdefghijklmnopqrstuvwxyzABCDEFGHIJKLMNOPQRSTUVWXYZ0123456789").data

/-- Embeds `sanitizeFilename` (source §10):
`filename.replace(/[^a-z0-9]/gi, '_').toLowerCase()`.
The regex replacement substitutes one `'_'` for each character outside
`[a-zA-Z0-9]`, then the whole string is lowercased; after the replacement every
character is ASCII, so ASCII `Char.toLower` coincides with JavaScript
`toLowerCase` here. -/
def sanitizeFilename (filename : String) : String :=
  ⟨(filename.data.map fun c => if c ∈ alnumChars then c else '_').map Char.toLower⟩

/-- The alphabet the sanitizer's output is drawn from: lowercase ASCII
alphanumerics and the underscore. -/
def sanitizedChars : List Char :=
  ("abcdefghijklmnopqrstuvwxyz0123456789_").data

/-- The idea alphabet on which sanitization is invertible: lowercase ASCII
alphanumerics and the space. -/
def ideaSafeChars : List Char :=
  (" abcdefghijklmnopqrstuvwxyz0123456789").data

/-- Trace of one run of a bounded-retry loop: the value returned to the caller
(`none` models the `return null` after exhaustion), how many times the wrapped
operation was invoked, and the list of `retryDelay` suspensions performed
between attempts, in order. -/
structure RetryTrace (α : Type) where
  result : Option α
  calls : Nat
  delays : List Nat
deriving DecidableEq

/-- Embeds the retry loop shared verbatim by `generateNewIdea` (source §11) and
`generateSVGWithGPT4` (source §12):
`for (attempt = 1; attempt <= maxRetries; attempt++) { try { return ← op() }`
`catch { if (attempt < maxRetries) await sleep(retryDelay) } } return null`.
`op attempt` is the outcome of the attempt with that (1-based) number;
`remaining` counts the attempts still allowed, so the loop is entered as
`retryLoop op retryDelay 1 maxRetries`. An `Except.error` models a thrown
exception, which the `catch` swallows: no exception escapes to the caller. -/
def retryLoop {ε α : Type} (op : Nat → Except ε α) (retryDelay : Nat) :
    Nat → Nat → RetryTrace α
  | _, 0 => ⟨none, 0, []⟩
  | attempt, n + 1 =>
    match op attempt with
    | Except.ok a => ⟨some a, 1, []⟩
    | Except.error _ =>
      if n = 0 then ⟨none, 1, []⟩
      else
        let rest := retryLoop op retryDelay (attempt + 1) n
        ⟨rest.result, rest.calls + 1, retryDelay :: rest.delays⟩

/-- The `message` object of one choice of a non-streamed chat completion
(source §11); `content` is `none` when the field is `null`/absent. -/
structure IdeaMessage where
  content : Option String
deriving DecidableEq

/-- One element of the `choices` array of a non-streamed completion. -/
structure IdeaChoice where
  message : IdeaMessage
deriving DecidableEq

/-- A non-streamed chat-completion response as `generateNewIdea` reads it. -/
structure IdeaResponse where
  choices : List IdeaChoice
deriving DecidableEq

/-- Embeds `chatCompletion.choices?.[0]?.message?.content?.trim() ?? ''`
(source §11): every missing link in the optional chain collapses to `''`. -/
def extractIdea (r : IdeaResponse) : String :=
  match r.choices with
  | [] => ""
  | ch :: _ =>
    match ch.message.content with
    | none => ""
    | some s => jsTrim s

/-- Embeds `generateNewIdea` (source §11). The environment argument `op`
gives, for each attempt number, either the response of that API call or the
exception it threw; the prompt built from `usedPrompts` is part of the
environment and does not affect the control flow modelled here. -/
def generateNewIdea (op : Nat → Except Unit IdeaResponse) (cfg : Config) :
    RetryTrace String :=
  retryLoop (fun attempt => (op attempt).map extractIdea) cfg.retryDelay 1 cfg.maxRetries

/-- One streamed chunk as `generateSVGWithGPT4` reads it: `content` models
`chunk.choices[0].delta?.content` and `finish` models
`chunk.choices[0].finish_reason` (`none` = `null`). -/
structure Chunk where
  content : Option String
  finish : Option String
deriving DecidableEq

/-- Embeds the `for await (const chunk of chatCompletion)` accumulation loop of
`generateSVGWithGPT4` (source §12): a chunk whose finish reason is `"stop"` or
`"length"` breaks out of the loop at once — its own content and every later
chunk are discarded; otherwise a truthy (present, non-empty) `delta.content`
is appended to the accumulator. `acc` is the mutable `accumulatedResponse`. -/
def accumulateResponse : List Chunk → String → String
  | [], acc => acc
  | c :: rest, acc =>
    if c.finish = some "stop" ∨ c.finish = some "length" then acc
    else
      match c.content with
      | some s => if s = "" then accumulateResponse rest acc else accumulateResponse rest (acc ++ s)
      | none => accumulateResponse rest acc

/-- The `{ description, svg }` record built by `generateSVGWithGPT4` and
consumed by `validateSVG` (source §12–13). -/
structure GenerationResult where
  description : String
  svg : String
deriving DecidableEq

/-- Embeds `generateSVGWithGPT4` (source §12). For each attempt number the
environment `op` yields either the full chunk sequence of a stream that
completed, or an exception; a failed attempt's `Except.error` payload carries
the chunks that had arrived before the throw, and is discarded by the `catch`.
Each attempt declares its own `let accumulatedResponse = ""`, so accumulation
always starts from the empty string. -/
def generateSVGWithGPT4 (op : Nat → Except (List Chunk) (List Chunk))
    (description : String) (cfg : Config) : RetryTrace GenerationResult :=
  retryLoop
    (fun attempt =>
      (op attempt).map fun chunks =>
        { description := description, svg := jsTrim (accumulateResponse chunks "") })
    cfg.retryDelay 1 cfg.maxRetries

/-- Embeds `validateSVG` (source §13):
`data.svg.trim().startsWith('<svg')`. -/
def validateSVG (data : GenerationResult) : Bool :=
  jsStartsWith (jsTrim data.svg) "<svg"

/-- JavaScript truthiness of the `string | null` returned by
`generateNewIdea`, as tested by `if (!newIdea)` (source §14): `null` and the
empty string are falsy. -/
def falsyIdea : Option String → Bool
  | none => true
  | some s => s = ""

/-- The model collaborator for one whole run: for every iteration index, the
used-prompts list sent with the idea request, and 1-based attempt number, the
outcome of that attempt of the idea call resp. of the streamed artifact call
(the artifact call is additionally keyed by the idea being rendered). -/
structure Env where
  ideaOp : Nat → List String → Nat → Except Unit IdeaResponse
  svgOp : Nat → String → Nat → Except (List Chunk) (List Chunk)

/-- Observable state of `generateAndSaveSVGs` (source §14): the `usedPrompts`
array, the files written (path and contents, in write order), call counts of
the two wrapped generators, and the inter-generation pauses performed — as
`(iteration index, generationDelay)` pairs, in order. -/
structure OrchState where
  usedPrompts : List String
  files : List (String × String)
  ideaCalls : Nat
  svgCalls : Nat
  delayIters : List (Nat × Nat)
deriving DecidableEq

/-- The state at the top of the loop: `usedPrompts = []`, nothing written. -/
def initialState : OrchState := ⟨[], [], 0, 0, []⟩

/-- Embeds one iteration of the `for (let i = 0; i < outputCount; i++)` body of
`generateAndSaveSVGs` (source §14). When `!newIdea` the `continue` skips
everything that follows — including the trailing generation-delay block.
Otherwise the idea is pushed, the artifact call runs, a file is written exactly
when the result is non-null and `validateSVG` accepts it, and then the pause
runs iff `i < outputCount - 1`, whatever the artifact outcome was. -/
def loopIteration (env : Env) (cfg : Config) (i : Nat) (st : OrchState) : OrchState :=
  let newIdea := (generateNewIdea (env.ideaOp i st.usedPrompts) cfg).result
  if falsyIdea newIdea then
    { st with ideaCalls := st.ideaCalls + 1 }
  else
    let idea := newIdea.getD ""
    let svgResult := (generateSVGWithGPT4 (env.svgOp i idea) idea cfg).result
    let newFiles :=
      match svgResult with
      | some result =>
        if validateSVG result then
          [(cfg.outputFolder ++ "/" ++ sanitizeFilename idea ++ ".svg", result.svg)]
        else []
      | none => []
    let delays := if i < cfg.outputCount - 1 then [(i, cfg.generationDelay)] else []
    { st with
      ideaCalls := st.ideaCalls + 1
      usedPrompts := st.usedPrompts ++ [idea]
      svgCalls := st.svgCalls + 1
      files := st.files ++ newFiles
      delayIters := st.delayIters ++ delays }

/-- Embeds `generateAndSaveSVGs` (source §14): run the loop body for
`i = 0, …, outputCount - 1` starting from the empty session state. -/
def generateAndSaveSVGs (env : Env) (cfg : Config) : OrchState :=
  (List.range cfg.outputCount).foldl (fun st i => loopIteration env cfg i st) initialState

/-- Embeds `path.basename(file, '.svg')` as used by stage 2 (source file 2,
`generateJSONL`): Node strips the extension exactly when it is a proper suffix
of the (directory-free) name. -/
def basenameNoSvg (file : String) : String :=
  if (".svg").data.isSuffixOf file.data ∧ (".svg").data.length < file.data.length then
    ⟨file.data.take (file.data.length - (".svg").data.length)⟩
  else file

/-- Embeds the per-file description derivation of stage 2 (source file 2,
lines 10–14): `path.basename(file, '.svg').replace(/_/g, ' ')`. -/
def deriveDescription (file : String) : String :=
  ⟨(basenameNoSvg file).data.map fun c => if c = '_' then ' ' else c⟩

/-- An environment in which every attempt of every call throws: the mock of a
collaborator that is permanently down. -/
def envAllFail : Env :=
  { ideaOp := fun _ _ _ => Except.error ()
    svgOp := fun _ _ _ => Except.error [] }

/-- An environment in which every call succeeds at the first attempt: the idea
call yields "A sun" and the artifact stream yields a valid SVG. -/
def envGood : Env :=
  { ideaOp := fun _ _ _ => Except.ok ⟨[⟨⟨some "A sun"⟩⟩]⟩
    svgOp := fun _ _ _ => Except.ok [⟨some "<svg width='10'/>", none⟩, ⟨none, some "stop"⟩] }

/-- An environment whose idea responses carry an empty `choices` array. -/
def envEmptyIdea : Env :=
  { ideaOp := fun _ _ _ => Except.ok ⟨[]⟩
    svgOp := fun _ _ _ => Except.error [] }

/-- An idea-call behaviour whose first attempt fails and whose second attempt
succeeds. -/
def opIdeaW : Nat → Except Unit IdeaResponse :=
  fun a => if a = 1 then Except.error () else Except.ok ⟨[⟨⟨some "A sun"⟩⟩]⟩

/-- An artifact-call behaviour whose first attempt fails and whose second
attempt streams a valid SVG. -/
def opSvgW : Nat → Except (List Chunk) (List Chunk) :=
  fun a => if a = 1 then Except.error [] else Except.ok [⟨some "<svg/>", none⟩, ⟨none, some "stop"⟩]

/-- An artifact-call behaviour whose first attempt throws after having
received the fragment `"<bad"`, and whose second attempt completes. -/
def opSvgPartialW : Nat → Except (List Chunk) (List Chunk) :=
  fun a => if a = 1 then Except.error [⟨some "<bad", none⟩]
           else Except.ok [⟨some "<svg width='10'/>", none⟩, ⟨none, some "stop"⟩]

/-! ## Helper lemmas about the retry loop -/

/-- One unfolding step of the retry loop: a successful attempt returns at
once. -/
theorem retryLoop_step_ok {ε α : Type} {op : Nat → Except ε α} {d s n : Nat} {a : α}
    (hok : op s = Except.ok a) :
    retryLoop op d s (n + 1) = ⟨some a, 1, []⟩ := by
  conv_lhs => rw [retryLoop]
  rw [hok]

/-- One unfolding step of the retry loop: a failed attempt with attempts still
remaining suspends for the retry delay and continues. -/
theorem retryLoop_step_error {ε α : Type} {op : Nat → Except ε α} {d s n : Nat} {e : ε}
    (he : op s = Except.error e) (hn : n ≠ 0) :
    retryLoop op d s (n + 1)
      = ⟨(retryLoop op d (s + 1) n).result, (retryLoop op d (s + 1) n).calls + 1,
          d :: (retryLoop op d (s + 1) n).delays⟩ := by
  conv_lhs => rw [retryLoop]
  rw [he]
  simp [hn]

/-- One unfolding step of the retry loop: a failed final attempt returns
`none` with no further suspension. -/
theorem retryLoop_last_error {ε α : Type} {op : Nat → Except ε α} {d s : Nat} {e : ε}
    (he : op s = Except.error e) :
    retryLoop op d s 1 = ⟨none, 1, []⟩ := by
  conv_lhs => rw [retryLoop]
  rw [he]
  simp

/-- If the attempts numbered `s, …, s + k - 1` throw and attempt `s + k`
succeeds with `a`, and at least `k + 1` attempts remain, the retry loop returns
`a` after `k + 1` invocations with `k` suspensions of the retry delay. -/
theorem retryLoop_ok {ε α : Type} (op : Nat → Except ε α) (d : Nat) (a : α) :
    ∀ (k s n : Nat), (∀ j, j < k → ∃ e, op (s + j) = Except.error e) →
      op (s + k) = Except.ok a → k < n →
      retryLoop op d s n = ⟨some a, k + 1, List.replicate k d⟩ := by
  intro k
  induction k with
  | zero =>
    intro s n _ hs hn
    obtain ⟨m, rfl⟩ : ∃ m, n = m + 1 := ⟨n - 1, by omega⟩
    have hs' : op s = Except.ok a := by simpa using hs
    rw [retryLoop_step_ok hs']
    rfl
  | succ k ih =>
    intro s n hf hs hn
    obtain ⟨m, rfl⟩ : ∃ m, n = m + 1 := ⟨n - 1, by omega⟩
    obtain ⟨e, he⟩ := hf 0 (Nat.succ_pos k)
    have he' : op s = Except.error e := by simpa using he
    have hm : m ≠ 0 := by omega
    have hrec := ih (s + 1) m
      (fun j hj => by
        obtain ⟨e', he''⟩ := hf (j + 1) (by omega)
        exact ⟨e', by rw [← he'']; congr 1; omega⟩)
      (by rw [← hs]; congr 1; omega)
      (by omega)
    rw [retryLoop_step_error he' hm, hrec]
    simp [List.replicate_succ]

/-- If every attempt throws, the retry loop invokes the operation once per
allowed attempt, suspends between consecutive attempts only, and returns
`none`. -/
theorem retryLoop_allFail {ε α : Type} (op : Nat → Except ε α) (d : Nat)
    (h : ∀ a, ∃ e, op a = Except.error e) :
    ∀ (n s : Nat), retryLoop op d s n = ⟨none, n, List.replicate (n - 1) d⟩ := by
  intro n
  induction n with
  | zero =>
    intro s
    conv_lhs => rw [retryLoop]
    rfl
  | succ n ih =>
    intro s
    obtain ⟨e, he⟩ := h s
    by_cases hn : n = 0
    · subst hn
      rw [retryLoop_last_error he]
      rfl
    · rw [retryLoop_step_error he hn, ih (s + 1)]
      obtain ⟨m, rfl⟩ : ∃ m, n = m + 1 := ⟨n - 1, by omega⟩
      simp [List.replicate_succ]

/-! ## Helper lemmas about the orchestrator loop body -/

/-- Every run of the loop body performs exactly one idea call. -/
theorem loopIteration_ideaCalls (env : Env) (cfg : Config) (i : Nat) (st : OrchState) :
    (loopIteration env cfg i st).ideaCalls = st.ideaCalls + 1 := by
  simp only [loopIteration]
  split <;> rfl

/-- When the idea call result is falsy, the loop body only counts its idea
call: nothing is pushed, no artifact call happens, nothing is written, and no
generation delay is performed. -/
theorem loopIteration_skip (env : Env) (cfg : Config) (i : Nat) (st : OrchState)
    (h : falsyIdea (generateNewIdea (env.ideaOp i st.usedPrompts) cfg).result = true) :
    loopIteration env cfg i st = { st with ideaCalls := st.ideaCalls + 1 } := by
  simp only [loopIteration, h, if_true]

/-- Folding the loop body over any iteration list adds its length to the idea
call count. -/
theorem foldl_ideaCalls (env : Env) (cfg : Config) :
    ∀ (l : List Nat) (st : OrchState),
      (l.foldl (fun st i => loopIteration env cfg i st) st).ideaCalls
        = st.ideaCalls + l.length := by
  intro l
  induction l with
  | nil => intro st; simp
  | cons i l ih =>
    intro st
    simp only [List.foldl_cons, List.length_cons]
    rw [ih, loopIteration_ideaCalls]
    omega

/-! ## Helper lemmas about characters -/

/-- Lowercasing any character the regex class `[a-zA-Z0-9]` keeps lands in the
sanitized alphabet. -/
theorem toLower_alnum_mem : ∀ c ∈ alnumChars, Char.toLower c ∈ sanitizedChars := by
  decide

/-- On the safe idea alphabet, underscore-to-space after the sanitizer's
replace-and-lowercase is the identity. -/
theorem safeChar_roundtrip : ∀ c ∈ ideaSafeChars,
    ((fun c' => if c' = '_' then ' ' else c') ∘ Char.toLower ∘ fun c' =>
      if c' ∈ alnumChars then c' else '_') c = c := by
  decide

/-! ## Claim theorems -/

/-- **C2.** For an operation that fails exactly `k` times and then succeeds,
with `maxRetries ≥ k + 1`, the retry-wrapped call — `generateNewIdea` as well
as `generateSVGWithGPT4` — returns the success result, invokes the operation
exactly `k + 1` times, and performs exactly `k` suspensions of the configured
`retryDelay` between attempts. -/
theorem retry_success_semantics (cfg : Config) (k : Nat)
    (opI : Nat → Except Unit IdeaResponse) (r : IdeaResponse)
    (opS : Nat → Except (List Chunk) (List Chunk)) (cs : List Chunk) (desc : String)
    (hIf : ∀ a, 1 ≤ a → a ≤ k → opI a = Except.error ())
    (hIs : opI (k + 1) = Except.ok r)
    (hSf : ∀ a, 1 ≤ a → a ≤ k → ∃ p, opS a = Except.error p)
    (hSs : opS (k + 1) = Except.ok cs)
    (hk : k + 1 ≤ cfg.maxRetries) :
    generateNewIdea opI cfg
      = ⟨some (extractIdea r), k + 1, List.replicate k cfg.retryDelay⟩
    ∧ generateSVGWithGPT4 opS desc cfg
      = ⟨some { description := desc, svg := jsTrim (accumulateResponse cs "") },
          k + 1, List.replicate k cfg.retryDelay⟩ := by
  constructor
  · unfold generateNewIdea
    apply retryLoop_ok _ _ _ k 1 cfg.maxRetries
    · intro j hj
      refine ⟨(), ?_⟩
      have h1 : 1 + j = j + 1 := by omega
      rw [h1, hIf (j + 1) (by omega) (by omega)]
      rfl
    · have h1 : 1 + k = k + 1 := by omega
      rw [h1, hIs]
      rfl
    · omega
  · unfold generateSVGWithGPT4
    apply retryLoop_ok _ _ _ k 1 cfg.maxRetries
    · intro j hj
      have h1 : 1 + j = j + 1 := by omega
      obtain ⟨p, hp⟩ := hSf (j + 1) (by omega) (by omega)
      refine ⟨p, ?_⟩
      rw [h1, hp]
      rfl
    · have h1 : 1 + k = k + 1 := by omega
      rw [h1, hSs]
      rfl
    · omega

/-- Witness for C2 at `k = 1` with the source configuration
(`maxRetries = 3`, `retryDelay = 3000`). -/
theorem retry_success_semantics_witness :
    generateNewIdea opIdeaW config = ⟨some "A sun", 2, [3000]⟩
    ∧ generateSVGWithGPT4 opSvgW "a dog" config = ⟨some ⟨"a dog", "<svg/>"⟩, 2, [3000]⟩ := by
  have h := retry_success_semantics config 1 opIdeaW ⟨[⟨⟨some "A sun"⟩⟩]⟩ opSvgW
      [⟨some "<svg/>", none⟩, ⟨none, some "stop"⟩] "a dog"
      (fun a h1 h2 => by
        have ha : a = 1 := by omega
        subst ha; rfl)
      rfl
      (fun a h1 h2 => by
        have ha : a = 1 := by omega
        subst ha; exact ⟨[], rfl⟩)
      rfl (by decide)
  exact ⟨h.1, h.2⟩

/-- **C3.** For an operation that always fails, with `maxRetries = m`, the
retry-wrapped call invokes the operation exactly `m` times and returns `none`
("no result") to its caller — the embedding is a total function: the swallowed
`Except.error`s never escape. The orchestrator treats that `none` as a
skippable, non-fatal condition for the current iteration: nothing is appended,
no artifact call is made, and no file is written; likewise an exhausted
artifact call writes nothing. -/
theorem retry_exhaustion_semantics (cfg : Config) (desc : String)
    (opI : Nat → Except Unit IdeaResponse)
    (opS : Nat → Except (List Chunk) (List Chunk))
    (hI : ∀ a, opI a = Except.error ())
    (hS : ∀ a, ∃ p, opS a = Except.error p) :
    generateNewIdea opI cfg
      = ⟨none, cfg.maxRetries, List.replicate (cfg.maxRetries - 1) cfg.retryDelay⟩
    ∧ generateSVGWithGPT4 opS desc cfg
      = ⟨none, cfg.maxRetries, List.replicate (cfg.maxRetries - 1) cfg.retryDelay⟩
    ∧ (∀ env i st,
        (generateNewIdea (env.ideaOp i st.usedPrompts) cfg).result = none →
        (loopIteration env cfg i st).usedPrompts = st.usedPrompts
        ∧ (loopIteration env cfg i st).svgCalls = st.svgCalls
        ∧ (loopIteration env cfg i st).files = st.files)
    ∧ (∀ env i st,
        (generateSVGWithGPT4
            (env.svgOp i ((generateNewIdea (env.ideaOp i st.usedPrompts) cfg).result.getD ""))
            ((generateNewIdea (env.ideaOp i st.usedPrompts) cfg).result.getD "") cfg).result
          = none →
        (loopIteration env cfg i st).files = st.files) := by
  refine ⟨?_, ?_, ?_, ?_⟩
  · unfold generateNewIdea
    exact retryLoop_allFail _ _ (fun a => ⟨(), by rw [hI a]; rfl⟩) cfg.maxRetries 1
  · unfold generateSVGWithGPT4
    exact retryLoop_allFail _ _
      (fun a => by
        obtain ⟨p, hp⟩ := hS a
        exact ⟨p, by rw [hp]; rfl⟩) cfg.maxRetries 1
  · intro env i st hres
    have hf : falsyIdea (generateNewIdea (env.ideaOp i st.usedPrompts) cfg).result = true := by
      rw [hres]; rfl
    rw [loopIteration_skip env cfg i st hf]
    exact ⟨rfl, rfl, rfl⟩
  · intro env i st hres
    by_cases hf : falsyIdea (generateNewIdea (env.ideaOp i st.usedPrompts) cfg).result = true
    · rw [loopIteration_skip env cfg i st hf]
    · simp only [loopIteration, hf, if_false, hres]
      simp

/-- Witness for C3 with the source configuration (`maxRetries = 3`): three
invocations, two suspensions, `none` result, and a skipped iteration. -/
theorem retry_exhaustion_semantics_witness :
    generateNewIdea (fun _ => Except.error ()) config = ⟨none, 3, [3000, 3000]⟩
    ∧ generateSVGWithGPT4 (fun _ => Except.error []) "a dog" config = ⟨none, 3, [3000, 3000]⟩
    ∧ (loopIteration envAllFail config 0 initialState).files = [] := by
  have h := retry_exhaustion_semantics config "a dog" (fun _ => Except.error ())
      (fun _ => Except.error []) (fun _ => rfl) (fun _ => ⟨[], rfl⟩)
  refine ⟨h.1, h.2.1, ?_⟩
  exact (h.2.2.1 envAllFail 0 initialState rfl).2.2

/-- **C9.** Each retry attempt of the artifact call is independent: the
accumulator is re-initialised to `""` per attempt, so when attempts `1, …, k`
fail (each with an arbitrary partial chunk list consumed before its throw) and
attempt `k + 1` streams the chunk list `cs` to completion, the returned
artifact text is the accumulation of `cs` alone, starting from the empty
string. -/
theorem svg_attempt_independence (cfg : Config) (desc : String) (k : Nat)
    (op : Nat → Except (List Chunk) (List Chunk)) (cs : List Chunk)
    (hf : ∀ a, 1 ≤ a → a ≤ k → ∃ p, op a = Except.error p)
    (hs : op (k + 1) = Except.ok cs)
    (hk : k + 1 ≤ cfg.maxRetries) :
    (generateSVGWithGPT4 op desc cfg).result
      = some { description := desc, svg := jsTrim (accumulateResponse cs "") } := by
  unfold generateSVGWithGPT4
  rw [retryLoop_ok _ _ _ k 1 cfg.maxRetries
    (fun j hj => by
      obtain ⟨p, hp⟩ := hf (j + 1) (by omega) (by omega)
      have h1 : 1 + j = j + 1 := by omega
      exact ⟨p, by rw [h1, hp]; rfl⟩)
    (by
      have h1 : 1 + k = k + 1 := by omega
      rw [h1, hs]; rfl)
    (by omega)]

/-- Witness for C9: the fragment `"<bad"` consumed by the failed first attempt
does not appear in the returned artifact. -/
theorem svg_attempt_independence_witness :
    opSvgPartialW 1 = Except.error [⟨some "<bad", none⟩]
    ∧ (generateSVGWithGPT4 opSvgPartialW "a dog" config).result
        = some ⟨"a dog", "<svg width='10'/>"⟩ := by
  refine ⟨rfl, ?_⟩
  have h := svg_attempt_independence config "a dog" 1 opSvgPartialW
      [⟨some "<svg width='10'/>", none⟩, ⟨none, some "stop"⟩]
      (fun a h1 h2 => by
        have ha : a = 1 := by omega
        subst ha; exact ⟨[⟨some "<bad", none⟩], rfl⟩)
      rfl (by decide)
  exact h

/-- **C10.** If the first attempt's non-streamed response carries no choices
or an empty message content, `generateNewIdea` returns the empty string (not
`none`) immediately — one invocation, no retry suspension — and the
orchestrator treats `some ""` exactly like a failed idea call: the iteration
ends with no append to `usedPrompts`, no artifact call, and no file written. -/
theorem empty_idea_semantics (cfg : Config)
    (op : Nat → Except Unit IdeaResponse) (r : IdeaResponse)
    (h1 : op 1 = Except.ok r)
    (hr : r.choices = [] ∨ ∃ ch rest, r.choices = ch :: rest ∧
            (ch.message.content = none ∨ ch.message.content = some ""))
    (hm : 1 ≤ cfg.maxRetries) :
    generateNewIdea op cfg = ⟨some "", 1, []⟩
    ∧ (∀ env i st,
        (generateNewIdea (env.ideaOp i st.usedPrompts) cfg).result = some "" →
        (loopIteration env cfg i st).usedPrompts = st.usedPrompts
        ∧ (loopIteration env cfg i st).svgCalls = st.svgCalls
        ∧ (loopIteration env cfg i st).files = st.files) := by
  have hext : extractIdea r = "" := by
    rcases hr with h | ⟨ch, rest, hch, hc⟩
    · simp [extractIdea, h]
    · rcases hc with hc | hc
      · simp [extractIdea, hch, hc]
      · simp only [extractIdea, hch, hc]
        decide
  constructor
  · unfold generateNewIdea
    obtain ⟨m, hm'⟩ : ∃ m, cfg.maxRetries = m + 1 := ⟨cfg.maxRetries - 1, by omega⟩
    rw [hm', retryLoop_step_ok (show (fun attempt => (op attempt).map extractIdea) 1
      = Except.ok "" by rw [show (fun attempt => (op attempt).map extractIdea) 1
        = (op 1).map extractIdea from rfl, h1]; simp [Except.map, hext])]
  · intro env i st hres
    have hf : falsyIdea (generateNewIdea (env.ideaOp i st.usedPrompts) cfg).result = true := by
      rw [hres]; rfl
    rw [loopIteration_skip env cfg i st hf]
    exact ⟨rfl, rfl, rfl⟩

/-- Witness for C10 with an empty `choices` array and the source config. -/
theorem empty_idea_semantics_witness :
    generateNewIdea (fun _ => Except.ok ⟨[]⟩) config = ⟨some "", 1, []⟩
    ∧ (loopIteration envEmptyIdea config 0 initialState).usedPrompts = []
    ∧ (loopIteration envEmptyIdea config 0 initialState).files = [] := by
  have h := empty_idea_semantics config (fun _ => Except.ok ⟨[]⟩) ⟨[]⟩ rfl
      (Or.inl rfl) (by decide)
  have h2 := h.2 envEmptyIdea 0 initialState rfl
  exact ⟨h.1, h2.1, h2.2.2⟩

/-- **C1 (counterexample).** With the source configuration (`outputCount =
10`) and a collaborator whose idea call always fails, all ten top-level
iterations run, yet not a single `generationDelay` pause is performed — in
particular none in the nine non-final iterations, contradicting the claim that
the pause happens "regardless of whether that iteration produced output —
including iterations in which the idea call returned no idea": the `continue`
taken when `!newIdea` bypasses the delay block. -/
theorem generation_delay_counterexample :
    config.outputCount = 10
    ∧ (generateAndSaveSVGs envAllFail config).ideaCalls = 10
    ∧ (generateAndSaveSVGs envAllFail config).delayIters = [] := by
  exact ⟨rfl, by decide, by decide⟩

/-- **C1 (amended).** The loop body performs the fixed `generationDelay` pause
exactly when the iteration's idea call returned a usable (non-null, non-empty)
idea and the iteration is not the final one; the pause is then taken
regardless of the artifact call's outcome or validation, while an iteration
whose idea call returned no idea skips the pause via `continue`. -/
theorem generation_delay_iff (env : Env) (cfg : Config) (i : Nat) (st : OrchState) :
    (loopIteration env cfg i st).delayIters
      = st.delayIters ++
          (if falsyIdea (generateNewIdea (env.ideaOp i st.usedPrompts) cfg).result = false
              ∧ i < cfg.outputCount - 1
           then [(i, cfg.generationDelay)] else []) := by
  simp only [loopIteration]
  split
  · rename_i h
    simp [h]
  · rename_i h
    simp only [Bool.not_eq_true] at h
    simp [h]

/-- Witness for C1 (amended): a successful non-final iteration of the source
configuration pauses for 2000 ms. -/
theorem generation_delay_iff_witness :
    (loopIteration envGood config 0 initialState).delayIters = [(0, 2000)] := by
  have h := generation_delay_iff envGood config 0 initialState
  exact h.trans (by decide)

/-- **C4.** For every configured `outputCount` and every collaborator
behaviour, the orchestrator completes (the embedding is a total function) after
performing exactly `outputCount` top-level iterations — measured by the number
of idea calls, of which each iteration makes exactly one; no skipped iteration
is ever re-run. Only the attempt count is fixed: how many files are persisted
varies with the environment. -/
theorem orchestrator_iteration_count (env : Env) (cfg : Config) :
    (generateAndSaveSVGs env cfg).ideaCalls = cfg.outputCount := by
  unfold generateAndSaveSVGs
  rw [foldl_ideaCalls]
  simp [initialState]

/-- Witness for C4 at the source configuration. -/
theorem orchestrator_iteration_count_witness :
    (generateAndSaveSVGs envGood config).ideaCalls = 10 :=
  orchestrator_iteration_count envGood config

/-- **C5.** The stream accumulator consumes fragments in arrival order: a
fragment whose finish reason is `"stop"` or `"length"` terminates consumption
at once, discarding that fragment's own content and every queued fragment
after it; any other fragment carrying content appends it verbatim to the
growing string. In particular the fragment sequence
`["<svg", " width", finish=stop]` — however extended past the stop signal —
produces `"<svg width"`. -/
theorem stream_accumulator_semantics :
    (∀ (c : Chunk) (rest : List Chunk) (acc : String),
        (c.finish = some "stop" ∨ c.finish = some "length") →
        accumulateResponse (c :: rest) acc = acc)
    ∧ (∀ (c : Chunk) (rest : List Chunk) (acc s : String),
        c.finish ≠ some "stop" → c.finish ≠ some "length" → c.content = some s →
        accumulateResponse (c :: rest) acc = accumulateResponse rest (acc ++ s))
    ∧ (∀ rest : List Chunk,
        accumulateResponse
          (⟨some "<svg", none⟩ :: ⟨some " width", none⟩ :: ⟨none, some "stop"⟩ :: rest) ""
          = "<svg width") := by
  refine ⟨?_, ?_, ?_⟩
  · intro c rest acc h
    simp only [accumulateResponse]
    rw [if_pos h]
  · intro c rest acc s h1 h2 hc
    simp only [accumulateResponse]
    rw [if_neg (by tauto), hc]
    by_cases hs : s = ""
    · subst hs
      simp
    · simp [hs]
  · intro rest
    simp [accumulateResponse]

/-- Witness for C5: a stop fragment returns the accumulator unchanged, and a
content fragment appends. -/
theorem stream_accumulator_semantics_witness :
    accumulateResponse [⟨none, some "stop"⟩] "x" = "x"
    ∧ accumulateResponse [⟨some "a", none⟩] "b" = accumulateResponse [] ("b" ++ "a") :=
  ⟨stream_accumulator_semantics.1 ⟨none, some "stop"⟩ [] "x" (Or.inl rfl),
   stream_accumulator_semantics.2.1 ⟨some "a", none⟩ [] "b" "a"
     (by decide) (by decide) rfl⟩

/-- **C6.** An iteration writes a file iff its idea call returned a usable
idea, the artifact call returned a result, and the artifact text — with
leading/trailing whitespace trimmed — begins with the literal `"<svg"`; in
particular `"  <svg viewBox='0 0 10 10'/>  "` is accepted while `"not svg"`
and `""` are rejected. -/
theorem file_persistence_iff (env : Env) (cfg : Config) (i : Nat) (st : OrchState) :
    ((loopIteration env cfg i st).files ≠ st.files ↔
      (falsyIdea (generateNewIdea (env.ideaOp i st.usedPrompts) cfg).result = false ∧
        ∃ r, (generateSVGWithGPT4
                (env.svgOp i ((generateNewIdea (env.ideaOp i st.usedPrompts) cfg).result.getD ""))
                ((generateNewIdea (env.ideaOp i st.usedPrompts) cfg).result.getD "") cfg).result
              = some r
            ∧ validateSVG r = true))
    ∧ validateSVG ⟨"a dog", "  <svg viewBox='0 0 10 10'/>  "⟩ = true
    ∧ validateSVG ⟨"a dog", "not svg"⟩ = false
    ∧ validateSVG ⟨"a dog", ""⟩ = false := by
  refine ⟨?_, by decide, by decide, by decide⟩
  simp only [loopIteration]
  split
  · rename_i h
    simp [h]
  · rename_i h
    simp only [Bool.not_eq_true] at h
    simp only [h, true_and]
    rcases hsvg : (generateSVGWithGPT4
        (env.svgOp i ((generateNewIdea (env.ideaOp i st.usedPrompts) cfg).result.getD ""))
        ((generateNewIdea (env.ideaOp i st.usedPrompts) cfg).result.getD "") cfg).result
      with _ | r
    · simp [hsvg]
    · simp only [hsvg]
      rcases hval : validateSVG r with _ | _
      · simp [hval]
      · simp only [hval, if_true, Option.some.injEq]
        constructor
        · intro _
          exact ⟨r, rfl, hval⟩
        · intro _ hcontra
          have := congrArg List.length hcontra
          simp at this

/-- Witness for C6: an iteration whose artifact is a valid SVG writes a
file. -/
theorem file_persistence_iff_witness :
    (loopIteration envGood config 0 initialState).files ≠ initialState.files := by
  have h := file_persistence_iff envGood config 0 initialState
  exact h.1.2 ⟨by decide, ⟨"A sun", "<svg width='10'/>"⟩, by decide, by decide⟩

/-- **C7 (counterexample).** The character-by-character rule of
`sanitizeFilename` maps `"A Cat! (v2)"` to `"a_cat___v2_"` — the three
consecutive offending characters `"! ("` each become their own underscore —
not to the spec's expected `"a_cat__v2_"`. -/
theorem sanitize_example_counterexample :
    sanitizeFilename "A Cat! (v2)" = "a_cat___v2_"
    ∧ sanitizeFilename "A Cat! (v2)" ≠ "a_cat__v2_" := by
  constructor <;> decide

/-- **C7 (amended).** For every input string, `sanitizeFilename` produces a
string containing only lowercase ASCII alphanumerics and underscores, replacing
each non-alphanumeric character individually with one underscore (runs are not
collapsed — the output has exactly one character per input character) and
lowercasing; on `"A Cat! (v2)"` this character-by-character rule yields
`"a_cat___v2_"` (not the `"a_cat__v2_"` the spec's example shows). -/
theorem sanitizeFilename_characters :
    (∀ (s : String), ∀ c ∈ (sanitizeFilename s).data, c ∈ sanitizedChars)
    ∧ (∀ (s : String), (sanitizeFilename s).data.length = s.data.length)
    ∧ sanitizeFilename "A Cat! (v2)" = "a_cat___v2_" := by
  refine ⟨?_, ?_, by decide⟩
  · intro s c hc
    have hc' : c ∈ ((s.data.map fun c => if c ∈ alnumChars then c else '_').map Char.toLower) := hc
    obtain ⟨b, hb, rfl⟩ := List.mem_map.1 hc'
    obtain ⟨a, _, rfl⟩ := List.mem_map.1 hb
    by_cases h : a ∈ alnumChars
    · rw [if_pos h]
      exact toLower_alnum_mem a h
    · rw [if_neg h]
      decide
  · intro s
    show ((s.data.map fun c => if c ∈ alnumChars then c else '_').map Char.toLower).length
      = s.data.length
    simp

/-- Witness for C7 (amended): the sanitized form of `"A"` is `"a"`, whose only
character is in the allowed alphabet. -/
theorem sanitizeFilename_characters_witness :
    'a' ∈ (sanitizeFilename "A").data ∧ 'a' ∈ sanitizedChars :=
  ⟨by decide, sanitizeFilename_characters.1 "A" 'a' (by decide)⟩

/-- **C8 (counterexample).** Stage 2's filename-to-description derivation does
not invert stage 1's sanitization in general: the idea `"A Cat"` is stored as
`"a_cat.svg"`, from which stage 2 derives `"a cat"` ≠ `"A Cat"` (case is
lost; punctuation and underscores in ideas are likewise irrecoverable). -/
theorem derive_description_counterexample :
    deriveDescription (sanitizeFilename "A Cat" ++ ".svg") = "a cat"
    ∧ deriveDescription (sanitizeFilename "A Cat" ++ ".svg") ≠ "A Cat" := by
  constructor <;> decide

/-- **C8 (amended).** The derivation inverts the sanitization exactly on the
ideas the two maps can transport: for every non-empty idea consisting only of
lowercase ASCII letters, digits and spaces, the description stage 2 derives
from the filename produced by `sanitizeFilename` equals the original idea. -/
theorem derive_description_roundtrip (idea : String)
    (hne : idea.data ≠ [])
    (hsafe : ∀ c ∈ idea.data, c ∈ ideaSafeChars) :
    deriveDescription (sanitizeFilename idea ++ ".svg") = idea := by
  obtain ⟨L⟩ := idea
  have hdata : (sanitizeFilename ⟨L⟩ ++ ".svg").data
      = ((L.map fun c => if c ∈ alnumChars then c else '_').map Char.toLower)
          ++ (".svg").data := String.data_append _ _
  have h4 : (".svg").data.length = 4 := rfl
  have hlen : ((L.map fun c => if c ∈ alnumChars then c else '_').map Char.toLower).length
      = L.length := by simp
  have hLpos : L.length ≠ 0 := fun h => hne (List.length_eq_zero.1 h)
  have hcond : (".svg").data.isSuffixOf (sanitizeFilename ⟨L⟩ ++ ".svg").data
      ∧ (".svg").data.length < (sanitizeFilename ⟨L⟩ ++ ".svg").data.length := by
    rw [hdata]
    constructor
    · exact List.isSuffixOf_iff_suffix.2 (List.suffix_append _ _)
    · rw [h4, List.length_append, hlen, h4]
      omega
  show (⟨(basenameNoSvg (sanitizeFilename ⟨L⟩ ++ ".svg")).data.map
      fun c => if c = '_' then ' ' else c⟩ : String) = ⟨L⟩
  rw [basenameNoSvg, if_pos hcond, hdata]
  have htake : (((L.map fun c => if c ∈ alnumChars then c else '_').map Char.toLower)
        ++ (".svg").data).take
          ((((L.map fun c => if c ∈ alnumChars then c else '_').map Char.toLower)
            ++ (".svg").data).length - (".svg").data.length)
      = (L.map fun c => if c ∈ alnumChars then c else '_').map Char.toLower := by
    rw [List.length_append, h4, Nat.add_sub_cancel]
    exact List.take_left _ _
  show (⟨((((L.map fun c => if c ∈ alnumChars then c else '_').map Char.toLower)
        ++ (".svg").data).take
          ((((L.map fun c => if c ∈ alnumChars then c else '_').map Char.toLower)
            ++ (".svg").data).length - (".svg").data.length)).map
      fun c => if c = '_' then ' ' else c⟩ : String) = ⟨L⟩
  rw [htake, List.map_map, List.map_map]
  have hpt : ∀ a ∈ L,
      (((fun c => if c = '_' then ' ' else c) ∘ Char.toLower) ∘ fun c =>
        if c ∈ alnumChars then c else '_') a = a :=
    fun a ha => safeChar_roundtrip a (hsafe a ha)
  rw [List.map_congr_left hpt]
  simp

/-- Witness for C8 (amended): the idea `"a cat 2"` survives the round trip. -/
theorem derive_description_roundtrip_witness :
    ("a cat 2").data ≠ [] ∧ (∀ c ∈ ("a cat 2").data, c ∈ ideaSafeChars)
    ∧ deriveDescription (sanitizeFilename "a cat 2" ++ ".svg") = "a cat 2" :=
  ⟨by decide, by decide,
   derive_description_roundtrip "a cat 2" (by decide) (by decide)⟩

end SVGGen
